import Mathlib

/-!
Verification of the durable index manager of `arya2004/Zeno`
(`internal/pkg/queue/index`, the `IndexManager` with its WAL,
grouped-commit syncer and crash recovery).

The Go source is shallowly embedded: machine `uint64` counters become
`Nat` (the commit counters never approach 2^64 within a process
lifetime and Go's atomic Add/Load/Store on them are modelled as reads
and writes of a linearized event trace), Go errors become
`Option String` / `Except String`, the WAL file becomes the list of
appended entries, and the unbuffered-channel handshake of `Pop` is
modelled by an explicit rendezvous discipline.  The per-host queue
structure (`Index` with `add`/`pop`) is not among the provided sources;
those operations are modelled from the specification, each marked
`Modelled from the spec:` in its doc comment.
-/

/-- WAL operation tag, from `type Operation int` with `OpAdd`/`OpPop`. -/
inductive Operation
  | opAdd
  | opPop
deriving DecidableEq, Repr

/-- One WAL record, from `type WALEntry struct {Op, Host, BlobID, Position, Size}`.
`uint64` fields become `Nat`. -/
structure WALEntry where
  op : Operation
  host : String
  blobID : String
  position : Nat
  size : Nat
deriving DecidableEq, Repr

/-- An in-memory blob record, from the (unexported) `blob` struct with
fields `id`, `position`, `size`. -/
structure Blob where
  id : String
  position : Nat
  size : Nat
deriving DecidableEq, Repr

/-- The in-memory per-host queue index: a mapping from host to the
FIFO list of its blobs (head is oldest), keeping a deterministic host
order.  Modelled from the spec: the `Index` structure itself is not
among the provided sources. -/
def IndexT : Type := List (String × List Blob)

instance : DecidableEq IndexT := by
  unfold IndexT
  infer_instance

instance : Repr IndexT := by
  unfold IndexT
  infer_instance

/-- Modelled from the spec: `Index.add(host, id, position, size)` appends
a blob to the host's queue and rejects a duplicate id for that host
(§4.2: "Duplicates (same id already present for that host) are
rejected"). -/
def indexAdd : IndexT → String → String → Nat → Nat → Except String IndexT
  | [], host, id, pos, sz => .ok [(host, [⟨id, pos, sz⟩])]
  | (h, blobs) :: rest, host, id, pos, sz =>
    if h = host then
      if blobs.any (fun b => b.id = id) then
        .error "failed to update in-memory index: duplicate blob ID"
      else
        .ok ((h, blobs ++ [⟨id, pos, sz⟩]) :: rest)
    else
      match indexAdd rest host id pos sz with
      | .ok rest2 => .ok ((h, blobs) :: rest2)
      | .error e => .error e

/-- Modelled from the spec: the peek phase of `Index.pop` — the oldest
blob of the host's queue, or `none` when the host has no blobs. -/
def indexPeek : IndexT → String → Option Blob
  | [], _ => none
  | (h, blobs) :: rest, host =>
    if h = host then blobs.head? else indexPeek rest host

/-- Modelled from the spec: the commit phase of `Index.pop` — remove the
oldest blob of the host's queue (the peeked one); a host left without
blobs is pruned so that `IsEmpty` reflects "no hosts with any blobs". -/
def indexCommitPop : IndexT → String → IndexT
  | [], _ => []
  | (h, blobs) :: rest, host =>
    if h = host then
      match blobs with
      | [] => (h, blobs) :: rest
      | [_] => rest
      | _ :: b :: bs => (h, b :: bs) :: rest
    else
      (h, blobs) :: indexCommitPop rest host

/-- Modelled from the spec: `getOrderedHosts` — hosts in their stable
enumeration order. -/
def getOrderedHosts (idx : IndexT) : List String :=
  idx.map Prod.fst

/-- `IsWALCommited`, from `return im.walCommited.Load() >= commit`:
`durable` is the current value of the `walCommited` counter. -/
def IsWALCommited (durable commit : Nat) : Bool :=
  decide (durable ≥ commit)

/-- `WALCommit`, from `return im.walCommit.Add(1)`: increments the
flying counter and returns the new value. -/
def WALCommit (flying : Nat) : Nat × Nat :=
  (flying + 1, flying + 1)

/-- The sleep computed at the top of each `walCommitsSyncer` iteration,
from
`sleepTime := lastTrySyncDuration * time.Duration((100-im.WalIoPercent)/im.WalIoPercent)`
followed by `if sleepTime < im.WalMinInterval { sleepTime = im.WalMinInterval }`.
Durations are nanosecond counts; Go's `/` on `int` is truncated
division, which `Nat` division mirrors on these non-negative values. -/
def syncerSleepTime (lastTrySyncDuration walIoPercent walMinInterval : Nat) : Nat :=
  let sleepTime := lastTrySyncDuration * ((100 - walIoPercent) / walIoPercent)
  if sleepTime < walMinInterval then walMinInterval else sleepTime

/-- The sleep duration as the specification words it:
`sleep = max(WalMinInterval, lastSyncDuration × (100−p)/p)`, the product
`lastSyncDuration × (100−p)` divided by `p` (exact on the inputs used to
compare the two). -/
def syncerSleepTimeSpec (lastSyncDuration p walMinInterval : Nat) : Nat :=
  max walMinInterval (lastSyncDuration * (100 - p) / p)

/-- Outcome of one fsync attempt inside the `walCommitsSyncer` loop. -/
inductive SyncerIterOutcome
  | exitedWithError
  | retry
  | stored
deriving DecidableEq, Repr

/-- One iteration of `walCommitsSyncer` after the sleep, from lines
`flyingCommit := im.walCommit.Load()` … `im.walCommited.Store(commited)`:
`flyingRead` is the value of the flying counter read before the fsync
began, `durable` the current `walCommited` value.  Returns the new
`walCommited` value and how the iteration ended: on fsync error while
stopping the syncer returns; on fsync error otherwise it `continue`s;
on success it stores the pre-read flying value. -/
def syncerIteration (flyingRead durable : Nat) (stopping fsyncOk : Bool) :
    Nat × SyncerIterOutcome :=
  if fsyncOk then
    (flyingRead, .stored)
  else if stopping then
    (durable, .exitedWithError)
  else
    (durable, .retry)

/-- The mutable state of an `IndexManager` that the claims speak about:
the in-memory index (`hostIndex`), the WAL file contents as the list of
appended records, the two commit counters (`walCommit` = flying,
`walCommited` = durable) and the operation counters. -/
structure ManagerState where
  hostIndex : IndexT
  wal : List WALEntry
  flying : Nat
  durable : Nat
  opsSinceDump : Nat
  totalOps : Nat
deriving DecidableEq, Repr

/-- `unsafeWriteToWAL(op, host, id, position, size)`: encodes one entry
and appends it to the WAL file.  Whether the underlying write succeeds
is an environment input (`writeOk`); on failure nothing is appended and
the Go error string is produced. -/
def writeToWAL (wal : List WALEntry) (op : Operation) (host id : String)
    (position size : Nat) (writeOk : Bool) : Except String (List WALEntry) :=
  if writeOk then .ok (wal ++ [⟨op, host, id, position, size⟩])
  else .error "failed to write to WAL"

/-- `addCommitted(host, id, position, size)` in grouped-commit mode:
write the ADD entry to the WAL (returning `(0, err)` on write failure,
state untouched), then `commit = im.WALCommit()` (increment flying),
then apply to the in-memory index — an index error (duplicate) is
returned together with the already-assigned `commit`; on success the op
counters advance.  `writeOk` is the WAL-write environment input. -/
def addCommitted (st : ManagerState) (host id : String) (position size : Nat)
    (writeOk : Bool) : (Nat × Option String) × ManagerState :=
  match writeToWAL st.wal .opAdd host id position size writeOk with
  | .error e => ((0, some e), st)
  | .ok wal2 =>
    let commit := (WALCommit st.flying).2
    let st2 : ManagerState := { st with wal := wal2, flying := (WALCommit st.flying).1 }
    match indexAdd st2.hostIndex host id position size with
    | .error e => ((commit, some e), st2)
    | .ok idx2 =>
      ((commit, none),
       { st2 with hostIndex := idx2,
                  opsSinceDump := st2.opsSinceDump + 1,
                  totalOps := st2.totalOps + 1 })

/-- `add(host, id, position, size)` in synchronous mode: same as
`addCommitted` but with no commit counter. -/
def add (st : ManagerState) (host id : String) (position size : Nat)
    (writeOk : Bool) : Option String × ManagerState :=
  match writeToWAL st.wal .opAdd host id position size writeOk with
  | .error e => (some e, st)
  | .ok wal2 =>
    match indexAdd st.hostIndex host id position size with
    | .error e => (some e, { st with wal := wal2 })
    | .ok idx2 =>
      (none,
       { st with wal := wal2, hostIndex := idx2,
                 opsSinceDump := st.opsSinceDump + 1,
                 totalOps := st.totalOps + 1 })

/-- The two unbuffered channels the `Pop` goroutine sends on:
`WALSuccessChan` (read by `Index.pop`) and `errChan` (read by
`popCommitted` / `pop` after `Index.pop` returns). -/
inductive ChanName
  | walSuccessChan
  | popErrChan
deriving DecidableEq, Repr

/-- A value sent by the `Pop` helper goroutine on one of its two
channels. -/
inductive ChanMsg
  | walOk (ok : Bool)
  | errVal (e : Option String)
deriving DecidableEq, Repr

/-- The channel a message travels on. -/
def ChanMsg.chan : ChanMsg → ChanName
  | .walOk _ => .walSuccessChan
  | .errVal _ => .popErrChan

/-- The helper goroutine spawned by `popCommitted`/`pop`, embedded as
the WAL entry it appends (if any) and the ordered list of values it
sends on its channels.  From the source: it receives the peeked blob;
a `nil` blob means `Index.pop` failed and it returns at once.  If the
WAL write fails it sends the error on `errChan`, then `false` on
`WALSuccessChan`, and — the `if` block has no `return` — falls through
to also send `true` on `WALSuccessChan` and `nil` on `errChan`.  If the
WAL write succeeds it sends `true` on `WALSuccessChan` then `nil` on
`errChan`. -/
def popGoroutine (host : String) (b : Option Blob) (writeOk : Bool) :
    Option WALEntry × List ChanMsg :=
  match b with
  | none => (none, [])
  | some blob =>
    if writeOk then
      (some ⟨.opPop, host, blob.id, blob.position, blob.size⟩,
       [.walOk true, .errVal none])
    else
      (none,
       [.errVal (some "failed to write to WAL"), .walOk false,
        .walOk true, .errVal none])

/-- Rendezvous on an unbuffered channel, against the goroutine's queue
of pending sends: a receive on channel `c` completes only when the
goroutine's *earliest* undelivered send is on `c` (the goroutine is
blocked in that send until it is received); if the earliest pending
send is on the other channel, both sides block forever. -/
def recvOn (c : ChanName) : List ChanMsg → Option (ChanMsg × List ChanMsg)
  | [] => none
  | m :: rest => if m.chan = c then some (m, rest) else none

/-- What a call to `popCommitted` ends in. -/
inductive PopOutcome
  | ok (commit : Nat) (id : String) (position size : Nat)
  | err (msg : String)
  | deadlock
deriving DecidableEq, Repr

/-- `popCommitted(host)`: spawn the helper goroutine, then drive
`Index.pop(host, blobChan, WALSuccessChan)`.  Modelled from the spec
for the `Index.pop` side (§4.2): with an empty host queue it sends
`nil` on `blobChan` (releasing the goroutine) and returns `ErrEmpty`
without waiting; otherwise it sends the peeked blob and blocks
receiving on `WALSuccessChan` — `true` commits the removal, `false`
restores the peeked blob.  After `Index.pop` returns without error the
manager receives from `errChan`; a non-nil error is returned, otherwise
`commit = im.WALCommit()` and the op counters advance.  The goroutine's
WAL append (before any of its sends) is reflected in the state first;
a `deadlock` outcome records that the next receive can never pair with
the goroutine's earliest pending send. -/
def popCommitted (st : ManagerState) (host : String) (writeOk : Bool) :
    PopOutcome × ManagerState :=
  match indexPeek st.hostIndex host with
  | none =>
    (.err "pop: host queue is empty", st)
  | some blob =>
    let g := popGoroutine host (some blob) writeOk
    let st1 : ManagerState :=
      match g.1 with
      | some entry => { st with wal := st.wal ++ [entry] }
      | none => st
    match recvOn .walSuccessChan g.2 with
    | none => (.deadlock, st1)
    | some (m, rest) =>
      let committed := m = .walOk true
      let st2 : ManagerState :=
        if committed then { st1 with hostIndex := indexCommitPop st1.hostIndex host }
        else st1
      match recvOn .popErrChan rest with
      | none => (.deadlock, st2)
      | some (.errVal none, _) =>
        (.ok (WALCommit st2.flying).2 blob.id blob.position blob.size,
         { st2 with flying := (WALCommit st2.flying).1,
                    opsSinceDump := st2.opsSinceDump + 1,
                    totalOps := st2.totalOps + 1 })
      | some (.errVal (some e), _) => (.err e, st2)
      | some (.walOk _, _) => (.deadlock, st2)

/-- `pop(host)` in synchronous mode: identical channel protocol, no
commit counter. -/
def popUncommitted (st : ManagerState) (host : String) (writeOk : Bool) :
    PopOutcome × ManagerState :=
  match indexPeek st.hostIndex host with
  | none =>
    (.err "pop: host queue is empty", st)
  | some blob =>
    let g := popGoroutine host (some blob) writeOk
    let st1 : ManagerState :=
      match g.1 with
      | some entry => { st with wal := st.wal ++ [entry] }
      | none => st
    match recvOn .walSuccessChan g.2 with
    | none => (.deadlock, st1)
    | some (m, rest) =>
      let committed := m = .walOk true
      let st2 : ManagerState :=
        if committed then { st1 with hostIndex := indexCommitPop st1.hostIndex host }
        else st1
      match recvOn .popErrChan rest with
      | none => (.deadlock, st2)
      | some (.errVal none, _) =>
        (.ok 0 blob.id blob.position blob.size,
         { st2 with opsSinceDump := st2.opsSinceDump + 1,
                    totalOps := st2.totalOps + 1 })
      | some (.errVal (some e), _) => (.err e, st2)
      | some (.walOk _, _) => (.deadlock, st2)

/-- The channels a manager owns for shutdown, as created by
`NewIndexManager`: `stopChan` and `walStopChan` are made
(`make(chan struct{})`) only inside the `if useCommit` block; in
synchronous mode both stay `nil`. -/
structure ManagerChans where
  stopChanMade : Bool
  walStopChanMade : Bool
deriving DecidableEq, Repr

/-- The shutdown channels `NewIndexManager(walPath, indexPath, queueDir,
useCommit)` leaves in the manager. -/
def newIndexManagerChans (useCommit : Bool) : ManagerChans :=
  if useCommit then ⟨true, true⟩ else ⟨false, false⟩

/-- How a call to `Close()` ends. -/
inductive CloseOutcome
  | completed
  | blockedOnNilChannel
deriving DecidableEq, Repr

/-- `Close()`: after stopping the dump ticker it executes, in order,
`im.stopChan <- struct{}{}`, `im.walStopChan <- struct{}{}`, and
`<-im.walStopChan`.  A send on a `nil` Go channel blocks forever.  When
both channels were made (grouped-commit mode) each send finds its
receiver — the forwarder goroutine reads `stopChan`, the syncer's
`select` reads `walStopChan` and closes it on exit, unblocking the
final receive — and `Close` goes on to the final dump and file closes. -/
def closeOutcome (chans : ManagerChans) : CloseOutcome :=
  if chans.stopChanMade then
    if chans.walStopChanMade then .completed
    else .blockedOnNilChannel
  else .blockedOnNilChannel

/-- A linearized event on the grouped-commit counters: `walCommit` is a
call to `WALCommit` (atomic `walCommit.Add(1)`); `syncRead` is the
syncer's `flyingCommit := im.walCommit.Load()`; `syncStore` is the
syncer's `im.walCommited.Store(commited)` after a successful fsync;
`syncFail` is a failed fsync (no store). -/
inductive CommitEvent
  | walCommit
  | syncRead
  | syncStore
  | syncFail
deriving DecidableEq, Repr

/-- The commit-counter portion of the manager plus the syncer's local
`flyingCommit` variable (`candidate`). -/
structure CommitState where
  flying : Nat
  durable : Nat
  candidate : Nat
deriving DecidableEq, Repr

/-- Initial counters: both atomics start at zero and the syncer has
read nothing yet. -/
def initCommitState : CommitState := ⟨0, 0, 0⟩

/-- Effect of one linearized event on the commit counters. -/
def commitStep : CommitState → CommitEvent → CommitState
  | st, .walCommit => { st with flying := st.flying + 1 }
  | st, .syncRead => { st with candidate := st.flying }
  | st, .syncStore => { st with durable := st.candidate }
  | st, .syncFail => st

/-- The counters after a run of linearized events. -/
def commitRun (evs : List CommitEvent) : CommitState :=
  evs.foldl commitStep initCommitState

/-- The commit ids handed out by the `WALCommit` calls of a run, in
issue order (each `walCommit.Add(1)` returns the new value). -/
def commitIdsFrom : CommitState → List CommitEvent → List Nat
  | _, [] => []
  | st, e :: rest =>
    let st2 := commitStep st e
    match e with
    | .walCommit => st2.flying :: commitIdsFrom st2 rest
    | _ => commitIdsFrom st2 rest

/-- The successive values of `durable` over a run, starting from the
initial value of the given state. -/
def durableTraceFrom : CommitState → List CommitEvent → List Nat
  | st, [] => [st.durable]
  | st, e :: rest => st.durable :: durableTraceFrom (commitStep st e) rest

/-- One observable step of `AwaitWALCommitted`'s loop body: the listener
increment, the blocking receive of a watermark, the listener decrement;
`warnZero` is the `commit == 0` early return. -/
inductive AwaitEvent
  | warnZero
  | incListeners
  | recvNotify (w : Nat)
  | decListeners
deriving DecidableEq, Repr

/-- The `for` loop of `AwaitWALCommitted`: each pass does
`im.walNotifyListeners.Add(1)`, `idFromChan := <-im.walCommitedNotify`,
`im.walNotifyListeners.Add(-1)`, and returns when
`idFromChan >= commit`.  `feed` is the sequence of watermarks the
syncer will deliver on the notify channel; the returned Bool is `true`
when the loop returns and `false` when the feed runs dry with the call
still blocked in a receive. -/
def awaitLoop (commit : Nat) : List Nat → List AwaitEvent × Bool
  | [] => ([.incListeners], false)
  | w :: rest =>
    if commit ≤ w then
      ([.incListeners, .recvNotify w, .decListeners], true)
    else
      let r := awaitLoop commit rest
      (.incListeners :: .recvNotify w :: .decListeners :: r.1, r.2)

/-- `AwaitWALCommitted(commit)` against a durable watermark `durable`
and a future notify feed: `commit == 0` warns and returns at once;
a commit already durable (`IsWALCommited`) returns without touching the
listener count or the channel; otherwise the loop runs. -/
def AwaitWALCommitted (durable commit : Nat) (feed : List Nat) :
    List AwaitEvent × Bool :=
  if commit = 0 then ([.warnZero], true)
  else if IsWALCommited durable commit then ([], true)
  else awaitLoop commit feed

/-- Modelled from the spec: idempotent replay of one WAL entry onto the
index (§4.5/§4.7): an `ADD` whose host+id already exist is skipped, a
`POP` whose host head does not match (or whose host is absent/empty) is
skipped with a warning. -/
def applyEntryIdempotent (idx : IndexT) (e : WALEntry) : IndexT :=
  match e.op with
  | .opAdd =>
    match indexAdd idx e.host e.blobID e.position e.size with
    | .ok idx2 => idx2
    | .error _ => idx
  | .opPop =>
    match indexPeek idx e.host with
    | some b => if b.id = e.blobID then indexCommitPop idx e.host else idx
    | none => idx

/-- Modelled from the spec: `loadIndex` — stream the snapshot entries
(a sequence of `ADD` records in host order) through the codec into a
fresh `Index`; a missing or empty snapshot yields the empty index
(§4.7 step 1). -/
def loadIndex (snapshot : List WALEntry) : IndexT :=
  List.foldl applyEntryIdempotent [] snapshot

/-- Modelled from the spec: `RecoverFromCrash` — load the snapshot,
then replay the WAL entries in order on top of it, idempotently
(§4.7 steps 1–2). -/
def RecoverFromCrash (snapshot wal : List WALEntry) : IndexT :=
  List.foldl applyEntryIdempotent (loadIndex snapshot) wal

/-- The recovery dispatch of `NewIndexManager`, from the
`unsafeIsWALEmpty` check: a non-empty WAL runs `RecoverFromCrash`
(before the periodic-dump and syncer goroutines are started and before
the constructor returns); an empty WAL runs `loadIndex` only.  The
on-disk snapshot and WAL contents are the inputs. -/
def newIndexManagerIndex (snapshot wal : List WALEntry) : IndexT :=
  if wal.isEmpty then loadIndex snapshot
  else RecoverFromCrash snapshot wal

/-- A manager state holding a single blob `b1` queued at host `"h"`,
with an empty WAL and zeroed counters. -/
def oneBlobState : ManagerState :=
  { hostIndex := [("h", [⟨"b1", 0, 10⟩])], wal := [], flying := 0, durable := 0,
    opsSinceDump := 0, totalOps := 0 }

/-- A manager state with no hosts at all. -/
def emptyState : ManagerState :=
  { hostIndex := [], wal := [], flying := 0, durable := 0,
    opsSinceDump := 0, totalOps := 0 }

/-- A sample ADD record. -/
def sampleAddEntry : WALEntry := ⟨.opAdd, "h", "b1", 0, 10⟩

/-- The prefix of the notify feed consumed by `AwaitWALCommitted`'s
loop: every watermark below `commit`, then the first satisfying
watermark when one arrives. -/
def awaitConsumed (commit : Nat) (feed : List Nat) : List Nat :=
  feed.takeWhile (fun w => decide (w < commit)) ++
    (feed.dropWhile (fun w => decide (w < commit))).take 1

/-- The three listener-protocol events of one pass of the
`AwaitWALCommitted` loop: increment before the blocking receive,
decrement after it. -/
def awaitTrip (w : Nat) : List AwaitEvent :=
  [.incListeners, .recvNotify w, .decListeners]

/-- The invariant tying the grouped-commit counters together: the
syncer's local candidate lies between the durable and flying
watermarks. -/
def CommitInv (st : CommitState) : Prop :=
  st.durable ≤ st.candidate ∧ st.candidate ≤ st.flying

/-- Sanity check of the handshake model: with a successful WAL append,
`popCommitted` appends the POP record, commits the removal from the
index, and returns the peeked blob with the next commit id. -/
theorem popCommitted_success_path :
    popCommitted oneBlobState "h" true =
      (.ok 1 "b1" 0 10,
       { hostIndex := [], wal := [⟨.opPop, "h", "b1", 0, 10⟩], flying := 1,
         durable := 0, opsSinceDump := 1, totalOps := 1 }) := by
  decide

/-- C1: the claim says a `Pop` whose WAL append of the POP record fails
returns that error with the peeked blob restored as head of the host's
queue.  On the code, after a failed append the helper goroutine's first
act is a send on the unbuffered `errChan`, while the call is still
blocked inside `Index.pop` receiving on `WALSuccessChan`; neither side
can proceed, so `Pop` deadlocks and never returns at all (in both
`popCommitted` and `pop`).  At the failing input — one blob queued at
`"h"`, WAL append failing — the embedded handshake ends in `deadlock`;
the state (index and WAL) is as before the call, but no error is ever
returned to the caller. -/
theorem c1_pop_wal_failure_deadlocks :
    popCommitted oneBlobState "h" false = (.deadlock, oneBlobState) ∧
    popUncommitted oneBlobState "h" false = (.deadlock, oneBlobState) := by
  decide

/-- C2: the claim says `Close()` terminates without deadlock in both
modes.  `NewIndexManager` creates `stopChan` and `walStopChan` only
when `useCommit` is true, and `Close` unconditionally sends on both; a
send on a nil Go channel blocks forever, so in synchronous mode
(`useCommit = false`) `Close` blocks at `im.stopChan <- struct{}{}` and
never reaches the final dump.  In grouped-commit mode the sends find
their receivers and `Close` completes. -/
theorem c2_close_blocks_in_sync_mode :
    closeOutcome (newIndexManagerChans false) = .blockedOnNilChannel ∧
    closeOutcome (newIndexManagerChans true) = .completed := by
  decide

/-- C4: one iteration of `walCommitsSyncer`: a failed fsync while not
stopping leaves `durable` unchanged and continues to the next cycle; a
failed fsync while stopping exits with the error, `durable` still
unchanged; a successful fsync stores into `durable` exactly the flying
value read before the fsync began, whether stopping or not. -/
theorem c4_syncer_iteration_durable (flyingRead durable : Nat) :
    syncerIteration flyingRead durable false false = (durable, .retry) ∧
    syncerIteration flyingRead durable true false = (durable, .exitedWithError) ∧
    (∀ stopping, syncerIteration flyingRead durable stopping true = (flyingRead, .stored)) :=
  ⟨rfl, rfl, fun _ => rfl⟩

/-- C5 counterexample: at `lastSyncDuration = 100000000` ns (100 ms),
`WalIoPercent = 40` and `WalMinInterval = 10000000` ns (10 ms), the
code sleeps `100000000 * ((100-40)/40) = 100000000` ns, while the
spec's `max(WalMinInterval, lastSyncDuration × (100−p)/p)` is
`150000000` ns: the code computes the factor `(100−p)/p` with Go's
truncated integer division before multiplying. -/
theorem c5_counterexample :
    syncerSleepTime 100000000 40 10000000 ≠
      syncerSleepTimeSpec 100000000 40 10000000 := by
  decide

/-- C5 amended: the sleep equals
`max(WalMinInterval, lastSyncDuration × q)` where `q = (100−p)/p` is
computed with truncated integer division; in particular for every
`p > 50` the factor is zero and the sleep is always exactly
`WalMinInterval`. -/
theorem c5_sleep_integer_division (lastTrySyncDuration p walMinInterval : Nat) :
    syncerSleepTime lastTrySyncDuration p walMinInterval =
      max walMinInterval (lastTrySyncDuration * ((100 - p) / p)) ∧
    (50 < p → syncerSleepTime lastTrySyncDuration p walMinInterval = walMinInterval) := by
  constructor
  · simp only [syncerSleepTime, Nat.max_def]
    split_ifs <;> omega
  · intro hp
    have hq : (100 - p) / p = 0 := Nat.div_eq_of_lt (by omega)
    simp only [syncerSleepTime, hq, Nat.mul_zero]
    split_ifs <;> omega

/-- C5 witness: the amended statement evaluated at concrete inputs,
including one with `p > 50`. -/
theorem c5_sleep_witness :
    syncerSleepTime 100000000 40 10000000 =
      max 10000000 (100000000 * ((100 - 40) / 40)) ∧
    syncerSleepTime 100000000 60 10000000 = 10000000 :=
  ⟨(c5_sleep_integer_division 100000000 40 10000000).1,
   (c5_sleep_integer_division 100000000 60 10000000).2 (by decide)⟩

/-- C7: `IsWALCommited(commit)` returns true exactly when `commit` is
at most the current value of the durable counter, from
`return im.walCommited.Load() >= commit`. -/
theorem c7_isWALCommited_iff_le (durable commit : Nat) :
    IsWALCommited durable commit = true ↔ commit ≤ durable := by
  simp [IsWALCommited, ge_iff_le]

/-- C8: a `Pop` on a host whose queue holds no blobs returns the
empty-queue error and leaves the entire manager state — in particular
the WAL contents, hence the WAL's byte length — unchanged, in both
modes and whatever the WAL-write environment would have done. -/
theorem c8_empty_pop_no_wal_write (st : ManagerState) (host : String) (writeOk : Bool)
    (h : indexPeek st.hostIndex host = none) :
    popCommitted st host writeOk = (.err "pop: host queue is empty", st) ∧
    popUncommitted st host writeOk = (.err "pop: host queue is empty", st) := by
  constructor <;> simp [popCommitted, popUncommitted, h]

/-- C8 witness: `Pop("none")` on an empty manager. -/
theorem c8_empty_pop_witness :
    popCommitted emptyState "none" true = (.err "pop: host queue is empty", emptyState) ∧
    popUncommitted emptyState "none" true = (.err "pop: host queue is empty", emptyState) :=
  c8_empty_pop_no_wal_write emptyState "none" true (by decide)

theorem commitStep_inv {st : CommitState} (h : CommitInv st) (e : CommitEvent) :
    CommitInv (commitStep st e) := by
  obtain ⟨h1, h2⟩ := h
  cases e <;> simp [commitStep, CommitInv] <;> omega

theorem commitFoldl_inv (evs : List CommitEvent) :
    ∀ st : CommitState, CommitInv st → CommitInv (List.foldl commitStep st evs) := by
  induction evs with
  | nil => exact fun st h => h
  | cons e rest ih => exact fun st h => ih _ (commitStep_inv h e)

theorem commitIdsFrom_cons_walCommit (st : CommitState) (rest : List CommitEvent) :
    commitIdsFrom st (.walCommit :: rest) =
      (st.flying + 1) :: commitIdsFrom (commitStep st .walCommit) rest := rfl

theorem commitIdsFrom_lt (evs : List CommitEvent) :
    ∀ st : CommitState, ∀ x ∈ commitIdsFrom st evs, st.flying < x := by
  induction evs with
  | nil => intro st x hx; simp [commitIdsFrom] at hx
  | cons e rest ih =>
    intro st x hx
    cases e with
    | walCommit =>
      rw [commitIdsFrom_cons_walCommit] at hx
      rcases List.mem_cons.1 hx with rfl | hx2
      · exact Nat.lt_succ_self _
      · have := ih _ x hx2
        simp [commitStep] at this
        omega
    | syncRead => exact ih (commitStep st .syncRead) x hx
    | syncStore => exact ih (commitStep st .syncStore) x hx
    | syncFail => exact ih (commitStep st .syncFail) x hx

theorem commitIdsFrom_chain (evs : List CommitEvent) :
    ∀ st : CommitState, List.Chain' (· < ·) (commitIdsFrom st evs) := by
  induction evs with
  | nil => intro st; simp [commitIdsFrom]
  | cons e rest ih =>
    intro st
    cases e with
    | walCommit =>
      rw [commitIdsFrom_cons_walCommit]
      refine List.chain'_cons'.2 ⟨?_, ih _⟩
      intro y hy
      have hmem : y ∈ commitIdsFrom (commitStep st .walCommit) rest :=
        List.mem_of_mem_head? hy
      have := commitIdsFrom_lt rest _ y hmem
      simp [commitStep] at this
      omega
    | syncRead => exact ih (commitStep st .syncRead)
    | syncStore => exact ih (commitStep st .syncStore)
    | syncFail => exact ih (commitStep st .syncFail)

theorem durableTraceFrom_head (st : CommitState) (evs : List CommitEvent) :
    (durableTraceFrom st evs).head? = some st.durable := by
  cases evs <;> rfl

theorem durableTraceFrom_chain (evs : List CommitEvent) :
    ∀ st : CommitState, CommitInv st →
      List.Chain' (· ≤ ·) (durableTraceFrom st evs) := by
  induction evs with
  | nil => intro st _; simp [durableTraceFrom]
  | cons e rest ih =>
    intro st h
    show List.Chain' (· ≤ ·) (st.durable :: durableTraceFrom (commitStep st e) rest)
    refine List.chain'_cons'.2 ⟨?_, ih _ (commitStep_inv h e)⟩
    intro y hy
    rw [durableTraceFrom_head] at hy
    have hy2 : (commitStep st e).durable = y := by simpa using hy
    subst hy2
    cases e <;> simp [commitStep, h.1]

/-- C3: over every linearized run of grouped-commit events, the
counters satisfy `durable ≤ flying` (every prefix of a run is itself a
run, so this holds at every point), the commit ids returned by
successive `WALCommit` calls are strictly increasing in issue order,
and the successive values of `durable` are monotone non-decreasing. -/
theorem c3_monotone_commits (evs : List CommitEvent) :
    (commitRun evs).durable ≤ (commitRun evs).flying ∧
    List.Chain' (· < ·) (commitIdsFrom initCommitState evs) ∧
    List.Chain' (· ≤ ·) (durableTraceFrom initCommitState evs) := by
  refine ⟨?_, commitIdsFrom_chain evs initCommitState,
    durableTraceFrom_chain evs initCommitState ⟨Nat.le_refl 0, Nat.le_refl 0⟩⟩
  have h := commitFoldl_inv evs initCommitState ⟨Nat.le_refl 0, Nat.le_refl 0⟩
  exact Nat.le_trans h.1 h.2

theorem awaitLoop_eq (commit : Nat) (feed : List Nat) :
    awaitLoop commit feed =
      ((awaitConsumed commit feed).flatMap awaitTrip ++
        (if feed.any (fun w => decide (commit ≤ w)) then [] else [.incListeners]),
       feed.any (fun w => decide (commit ≤ w))) := by
  induction feed with
  | nil => rfl
  | cons w rest ih =>
    by_cases h : commit ≤ w
    · have hw : ¬ w < commit := by omega
      simp [awaitLoop, awaitConsumed, awaitTrip, h, hw]
    · have hw : w < commit := by omega
      simp [awaitLoop, awaitConsumed, awaitTrip, h, hw, ih]

/-- C6: `AwaitWALCommitted(0)` warns and returns at once;
`AwaitWALCommitted(commit)` with `commit > 0` already durable returns
at once with no listener traffic; otherwise the loop runs passes of
increment-listener / blocking receive / decrement-listener (the
increment strictly before the receive, the decrement after), consuming
watermarks until the first one at or above `commit` — returning then,
and staying blocked (after one final increment) if the feed never
delivers one. -/
theorem c6_await_protocol (durable commit : Nat) (feed : List Nat) :
    (AwaitWALCommitted durable 0 feed = ([.warnZero], true)) ∧
    (0 < commit → commit ≤ durable →
      AwaitWALCommitted durable commit feed = ([], true)) ∧
    (durable < commit →
      AwaitWALCommitted durable commit feed =
        ((awaitConsumed commit feed).flatMap awaitTrip ++
          (if feed.any (fun w => decide (commit ≤ w)) then [] else [.incListeners]),
         feed.any (fun w => decide (commit ≤ w)))) := by
  refine ⟨rfl, ?_, ?_⟩
  · intro hpos hle
    have h0 : commit ≠ 0 := by omega
    simp [AwaitWALCommitted, IsWALCommited, h0, ge_iff_le, hle]
  · intro hlt
    have h0 : commit ≠ 0 := by omega
    have hnot : ¬ commit ≤ durable := by omega
    simp [AwaitWALCommitted, IsWALCommited, h0, ge_iff_le, hnot, awaitLoop_eq]

/-- C6 witness: a commit already durable returns with an empty event
trace; a not-yet-durable commit runs the full
increment/receive/decrement passes until the first watermark at or
above it. -/
theorem c6_await_witness :
    AwaitWALCommitted 5 3 [] = ([], true) ∧
    AwaitWALCommitted 0 2 [1, 3] =
      ([.incListeners, .recvNotify 1, .decListeners,
        .incListeners, .recvNotify 3, .decListeners], true) :=
  ⟨(c6_await_protocol 5 3 []).2.1 (by decide) (by decide),
   ((c6_await_protocol 0 2 [1, 3]).2.2 (by decide)).trans (by decide)⟩

/-- C9: construction dispatches on whether the WAL file is empty: a
non-empty WAL runs `RecoverFromCrash`, which replays the WAL entries
(idempotently) on top of the loaded snapshot — and this happens inside
the constructor, before the background goroutines start and before any
traffic is accepted; an empty WAL loads the snapshot only. -/
theorem c9_recovery_dispatch (snapshot wal : List WALEntry) :
    (wal = [] → newIndexManagerIndex snapshot wal = loadIndex snapshot) ∧
    (wal ≠ [] →
      newIndexManagerIndex snapshot wal = RecoverFromCrash snapshot wal ∧
      RecoverFromCrash snapshot wal =
        List.foldl applyEntryIdempotent (loadIndex snapshot) wal) := by
  constructor
  · intro h
    subst h
    rfl
  · intro h
    cases wal with
    | nil => exact absurd rfl h
    | cons a l => exact ⟨rfl, rfl⟩

/-- C9 witness: an empty WAL loads the snapshot; a non-empty WAL runs
recovery. -/
theorem c9_recovery_witness :
    newIndexManagerIndex [sampleAddEntry] [] = loadIndex [sampleAddEntry] ∧
    newIndexManagerIndex [sampleAddEntry] [sampleAddEntry] =
      RecoverFromCrash [sampleAddEntry] [sampleAddEntry] :=
  ⟨(c9_recovery_dispatch [sampleAddEntry] []).1 rfl,
   ((c9_recovery_dispatch [sampleAddEntry] [sampleAddEntry]).2
      (List.cons_ne_nil _ _)).1⟩

/-- C10: a grouped-commit `Add` whose WAL append succeeds but whose
index apply fails (duplicate host+id): the `WALCommit` call precedes
the index update, so the state keeps the incremented flying counter and
the appended WAL entry, and the non-zero commit id `flying + 1` is
returned to the caller together with the error. -/
theorem c10_duplicate_add_consumes_commit (st : ManagerState) (host id : String)
    (position size : Nat) (e : String)
    (hdup : indexAdd st.hostIndex host id position size = .error e) :
    addCommitted st host id position size true =
      ((st.flying + 1, some e),
       { st with wal := st.wal ++ [⟨.opAdd, host, id, position, size⟩],
                 flying := st.flying + 1 }) ∧
    (addCommitted st host id position size true).1.1 ≠ 0 := by
  have h1 : addCommitted st host id position size true =
      ((st.flying + 1, some e),
       { st with wal := st.wal ++ [⟨.opAdd, host, id, position, size⟩],
                 flying := st.flying + 1 }) := by
    simp [addCommitted, writeToWAL, WALCommit, hdup]
  refine ⟨h1, ?_⟩
  rw [h1]
  simp

/-- C10 witness: adding the already-present `("h", "b1")` with a
successful WAL append consumes commit id 1 and returns it with the
duplicate error. -/
theorem c10_duplicate_add_witness :
    addCommitted oneBlobState "h" "b1" 100 5 true =
      ((oneBlobState.flying + 1,
        some "failed to update in-memory index: duplicate blob ID"),
       { oneBlobState with
           wal := oneBlobState.wal ++ [⟨.opAdd, "h", "b1", 100, 5⟩],
           flying := oneBlobState.flying + 1 }) :=
  (c10_duplicate_add_consumes_commit oneBlobState "h" "b1" 100 5
    "failed to update in-memory index: duplicate blob ID" rfl).1
